import Mathlib

/-!
Verification development for the `fa-session-redis` session persistence layer
(source: `src/index.ts`).  The development shallowly embeds:

* an abstract key-value store with per-key expiry (the state both underlying
  Redis clients act on);
* the two raw client protocols (shape A = ioredis-style, shape B =
  node-redis-style), each with its own reply encodings;
* the client normalization layer `createNormalizedRedisClient`
  (structural shape detection, reply-encoding reconciliation, fallbacks);
* the session store `createRedisSessionStore` (`get`, `create`, `destroy`)
  with TTL policies, serialization, request-scoped session metadata and
  the try/catch error-handling structure of the source.

Machine integers do not overflow in any modelled path, so counts and TTLs
are `Nat`/`Int`.  Fallible calls are `Except`/`Option`; a thrown exception
from an underlying client call is injected through explicit fault flags.
-/

namespace FaSessionRedis

/-- One stored record of the underlying key-value store: key, string value,
and optional remaining time-to-live in seconds (`none` = no TTL set). -/
structure Entry where
  key : String
  val : String
  ttl : Option Nat
deriving Repr, DecidableEq

/-- The abstract store state shared by both underlying clients. -/
abbrev Store := List Entry

/-- Look up the record stored under a key. -/
def storeLookup (σ : Store) (k : String) : Option Entry :=
  σ.find? (fun e => e.key == k)

/-- Remove the record stored under a key. -/
def storeRemove (σ : Store) (k : String) : Store :=
  σ.filter (fun e => e.key != k)

/-- Redis SET: store value, clearing any TTL. -/
def storeSet (σ : Store) (k v : String) : Store :=
  ⟨k, v, none⟩ :: storeRemove σ k

/-- Redis SETEX: store value with a TTL of `s` seconds. -/
def storeSetex (σ : Store) (k : String) (s : Nat) (v : String) : Store :=
  ⟨k, v, some s⟩ :: storeRemove σ k

/-- Redis DEL of a single key: count of keys actually removed (0 or 1). -/
def storeDelOne (σ : Store) (k : String) : Nat × Store :=
  if (storeLookup σ k).isSome then (1, storeRemove σ k) else (0, σ)

/-- Redis DEL of a list of keys: total count of keys actually removed. -/
def storeDel (σ : Store) (ks : List String) : Nat × Store :=
  match ks with
  | [] => (0, σ)
  | k :: rest =>
    let p := storeDelOne σ k
    let q := storeDel p.2 rest
    (p.1 + q.1, q.2)

/-- Redis EXPIRE: reset the key's TTL to `s` seconds; succeeds iff the key
exists. -/
def storeExpire (σ : Store) (k : String) (s : Nat) : Bool × Store :=
  match storeLookup σ k with
  | none => (false, σ)
  | some e => (true, ⟨k, e.val, some s⟩ :: storeRemove σ k)

/-- Redis TTL: `-2` when the key is absent, `-1` when it has no TTL set,
otherwise the remaining seconds. -/
def storeTtl (σ : Store) (k : String) : Int :=
  match storeLookup σ k with
  | none => -2
  | some e =>
    match e.ttl with
    | none => -1
    | some s => (s : Int)

/-- Reply-level fault injection for the raw clients: a failing SET answers
with a non-success reply (`null`), a failing EXPIRE answers with its
protocol's failure encoding, without touching the store. -/
structure RawFaults where
  setFails : Bool
  expireFails : Bool
deriving Repr, DecidableEq

/-- No reply faults: the canonical protocol behaviour. -/
def noRawFaults : RawFaults := ⟨false, false⟩

/-! ### Shape A raw client (ioredis protocol encodings) -/

/-- ioredis GET: the stored string or `null`. -/
def IoRedisRaw.get (σ : Store) (k : String) : Option String :=
  (storeLookup σ k).map Entry.val

/-- ioredis SET: replies the string `"OK"` on success, `null` on failure. -/
def IoRedisRaw.set (fl : RawFaults) (σ : Store) (k v : String) :
    Option String × Store :=
  if fl.setFails then (none, σ) else (some "OK", storeSet σ k v)

/-- ioredis SETEX: replies the string `"OK"`. -/
def IoRedisRaw.setex (σ : Store) (k : String) (s : Nat) (v : String) :
    String × Store :=
  ("OK", storeSetex σ k s v)

/-- ioredis DEL: replies the integer count of keys removed. -/
def IoRedisRaw.del (σ : Store) (ks : List String) : Nat × Store :=
  storeDel σ ks

/-- ioredis EXPIRE: replies the integer `1` on success, `0` on failure. -/
def IoRedisRaw.expire (fl : RawFaults) (σ : Store) (k : String) (s : Nat) :
    Nat × Store :=
  if fl.expireFails then (0, σ)
  else
    let p := storeExpire σ k s
    (if p.1 then 1 else 0, p.2)

/-- ioredis TTL: the Redis integer encoding. -/
def IoRedisRaw.ttl (σ : Store) (k : String) : Int :=
  storeTtl σ k

/-- ioredis variadic MGET: one `string | null` per input key, in order. -/
def IoRedisRaw.mget (σ : Store) (ks : List String) : List (Option String) :=
  ks.map (IoRedisRaw.get σ)

/-! ### Shape B raw client (node-redis protocol encodings) -/

/-- node-redis GET: the stored string or `null`. -/
def NodeRedisRaw.get (σ : Store) (k : String) : Option String :=
  (storeLookup σ k).map Entry.val

/-- node-redis SET: replies the string `"OK"` on success, `null` on
failure. -/
def NodeRedisRaw.set (fl : RawFaults) (σ : Store) (k v : String) :
    Option String × Store :=
  if fl.setFails then (none, σ) else (some "OK", storeSet σ k v)

/-- node-redis setEx: replies the string `"OK"`. -/
def NodeRedisRaw.setEx (σ : Store) (k : String) (s : Nat) (v : String) :
    String × Store :=
  ("OK", storeSetex σ k s v)

/-- node-redis del: replies the integer count of keys removed. -/
def NodeRedisRaw.del (σ : Store) (ks : List String) : Nat × Store :=
  storeDel σ ks

/-- node-redis EXPIRE: replies a boolean. -/
def NodeRedisRaw.expire (fl : RawFaults) (σ : Store) (k : String) (s : Nat) :
    Bool × Store :=
  if fl.expireFails then (false, σ) else storeExpire σ k s

/-- node-redis TTL: the Redis integer encoding. -/
def NodeRedisRaw.ttl (σ : Store) (k : String) : Int :=
  storeTtl σ k

/-- node-redis mGet (takes the key array): one `string | null` per key. -/
def NodeRedisRaw.mGet (σ : Store) (ks : List String) : List (Option String) :=
  ks.map (NodeRedisRaw.get σ)

/-- Capabilities the normalization layer probes at call time with
`typeof client.x === 'function'`: a combined set-with-expiry primitive
(`setex` / `setEx`), a `ttl` primitive, and a batched multi-get. -/
structure Caps where
  hasCombinedSetex : Bool
  hasTtl : Bool
  hasBatchedMget : Bool
deriving Repr, DecidableEq

/-- A fully capable underlying client. -/
def fullCaps : Caps := ⟨true, true, true⟩

/-! ### Normalized client over shape A (source lines 40-108) -/

/-- Normalized `get` over shape A: pass-through. -/
def NormA.get (σ : Store) (k : String) : Option String :=
  IoRedisRaw.get σ k

/-- Normalized `set` over shape A: `result === 'OK' || result === '1'`. -/
def NormA.set (fl : RawFaults) (σ : Store) (k v : String) : Bool × Store :=
  let p := IoRedisRaw.set fl σ k v
  (p.1 == some "OK" || p.1 == some "1", p.2)

/-- Normalized `setex` over shape A: uses the client's own `setex` when it
is a function, otherwise falls back to sequential `set` then `expire`,
checking `expireResult === 1 || expireResult === true` (ioredis replies an
integer). -/
def NormA.setex (caps : Caps) (fl : RawFaults) (σ : Store) (k : String)
    (s : Nat) (v : String) : Bool × Store :=
  if caps.hasCombinedSetex then
    let p := IoRedisRaw.setex σ k s v
    (p.1 == "OK" || p.1 == "1", p.2)
  else
    let p := IoRedisRaw.set fl σ k v
    if p.1 == some "OK" || p.1 == some "1" then
      let q := IoRedisRaw.expire fl p.2 k s
      (q.1 == 1, q.2)
    else (false, p.2)

/-- Normalized `del` over shape A: spreads the key list into the client's
variadic `del`, replying the count. -/
def NormA.del (σ : Store) (ks : List String) : Nat × Store :=
  IoRedisRaw.del σ ks

/-- Normalized `expire` over shape A: `result === 1 || result === true`
(ioredis replies an integer). -/
def NormA.expire (fl : RawFaults) (σ : Store) (k : String) (s : Nat) :
    Bool × Store :=
  let p := IoRedisRaw.expire fl σ k s
  (p.1 == 1, p.2)

/-- Normalized `ttl` over shape A: the client's own `ttl` when it is a
function, otherwise the constant `-2`. -/
def NormA.ttl (caps : Caps) (σ : Store) (k : String) : Int :=
  if caps.hasTtl then IoRedisRaw.ttl σ k else -2

/-- Normalized `mget` over shape A: the client's variadic `mget` when it is
a function, otherwise sequential per-key `get`. -/
def NormA.mget (caps : Caps) (σ : Store) (ks : List String) :
    List (Option String) :=
  if caps.hasBatchedMget then IoRedisRaw.mget σ ks
  else ks.map (IoRedisRaw.get σ)

/-! ### Normalized client over shape B (source lines 110-170) -/

/-- Normalized `get` over shape B: pass-through. -/
def NormB.get (σ : Store) (k : String) : Option String :=
  NodeRedisRaw.get σ k

/-- Normalized `set` over shape B: `result === 'OK'`. -/
def NormB.set (fl : RawFaults) (σ : Store) (k v : String) : Bool × Store :=
  let p := NodeRedisRaw.set fl σ k v
  (p.1 == some "OK", p.2)

/-- Normalized `setex` over shape B: uses the client's own `setEx` when it
is a function, otherwise falls back to sequential `set` then `expire`,
returning the boolean `expire` reply directly. -/
def NormB.setex (caps : Caps) (fl : RawFaults) (σ : Store) (k : String)
    (s : Nat) (v : String) : Bool × Store :=
  if caps.hasCombinedSetex then
    let p := NodeRedisRaw.setEx σ k s v
    (p.1 == "OK", p.2)
  else
    let p := NodeRedisRaw.set fl σ k v
    if p.1 == some "OK" then NodeRedisRaw.expire fl p.2 k s
    else (false, p.2)

/-- Normalized `del` over shape B: passes the key list through. -/
def NormB.del (σ : Store) (ks : List String) : Nat × Store :=
  NodeRedisRaw.del σ ks

/-- Normalized `expire` over shape B: `result === true || result === 1`
(node-redis replies a boolean). -/
def NormB.expire (fl : RawFaults) (σ : Store) (k : String) (s : Nat) :
    Bool × Store :=
  let p := NodeRedisRaw.expire fl σ k s
  (p.1 == true, p.2)

/-- Normalized `ttl` over shape B: the client's own `ttl` when it is a
function, otherwise the constant `-2`. -/
def NormB.ttl (caps : Caps) (σ : Store) (k : String) : Int :=
  if caps.hasTtl then NodeRedisRaw.ttl σ k else -2

/-- Normalized `mget` over shape B: the client's `mGet` when it is a
function, otherwise sequential per-key `get`. -/
def NormB.mget (caps : Caps) (σ : Store) (ks : List String) :
    List (Option String) :=
  if caps.hasBatchedMget then NodeRedisRaw.mGet σ ks
  else ks.map (NodeRedisRaw.get σ)

/-! ### Structural shape detection (source lines 27-36, 171-173, 226-228) -/

/-- A property slot of a supplied JavaScript client object: missing
(undefined, hence falsy), a function, or some truthy non-function value. -/
inductive JsSlot where
  | missing
  | fn
  | other
deriving Repr, DecidableEq

/-- JavaScript truthiness of a property slot: `undefined` is falsy. -/
def JsSlot.truthy : JsSlot → Bool
  | .missing => false
  | _ => true

/-- The method slots of a supplied client object that shape detection and
normalized-construction probe. -/
structure ClientShape where
  scan : JsSlot
  mget : JsSlot
  scanIterator : JsSlot
  mGet : JsSlot
  setex : JsSlot
deriving Repr, DecidableEq

/-- `isIoRedisClient`: a cursor-based `scan` function and a lowercase
`mget` function, and no (falsy) `scanIterator`. -/
def isIoRedisClient (c : ClientShape) : Bool :=
  c.scan == .fn && c.mget == .fn && !c.scanIterator.truthy

/-- `isNodeRedisClient`: a `scanIterator` function and a capitalized
`mGet` function. -/
def isNodeRedisClient (c : ClientShape) : Bool :=
  c.scanIterator == .fn && c.mGet == .fn

/-- Classification outcome of `createNormalizedRedisClient`: shape A,
shape B, or the thrown "unsupported client" error. -/
inductive ClientClass where
  | shapeA
  | shapeB
  | unsupported
deriving Repr, DecidableEq

/-- The dispatch of `createNormalizedRedisClient`: shape A is probed first,
then shape B, otherwise the construction throws. -/
def classifyClient (c : ClientShape) : ClientClass :=
  if isIoRedisClient c then .shapeA
  else if isNodeRedisClient c then .shapeB
  else .unsupported

/-- Which client `createRedisSessionStore` ends up using: the supplied
object taken as already-normalized, or an adapter over one of the two
recognized shapes; `Except.error` models the thrown "unsupported client"
failure. -/
inductive ChosenClient where
  | passthrough
  | adaptedA
  | adaptedB
deriving Repr, DecidableEq

/-- Client selection in `createRedisSessionStore`: an object whose `setex`
slot is a function is used as-is; otherwise it goes through
`createNormalizedRedisClient`, which throws on an unrecognized shape. -/
def selectClient (c : ClientShape) : Except String ChosenClient :=
  if c.setex == .fn then .ok .passthrough
  else
    match classifyClient c with
    | .shapeA => .ok .adaptedA
    | .shapeB => .ok .adaptedB
    | .unsupported =>
      .error "Unsupported Redis client type. Please use redis or ioredis."

/-! ### Session store (source lines 222-395) -/

/-- Session store configuration after defaulting (source lines 230-239):
`ttl = none` models `ttl: false` (expiration disabled). The id generator
and default-payload factory are passed as explicit parameters to the
operations that use them. -/
structure Config where
  keyPrefix : String := "session"
  ttl : Option Nat := some 86400
  rolling : Bool := false
  renew : Bool := false
  renewBefore : Nat := 600
deriving Repr, DecidableEq

/-- The stored key for a session id: `{prefix}:{sessionId}`. -/
def getKey (cfg : Config) (sessionId : String) : String :=
  cfg.keyPrefix ++ ":" ++ sessionId

/-- Request-scoped session metadata: current session id and computed
absolute expiry timestamp (milliseconds). -/
structure SessionMeta where
  sessionId : String
  expiresTime : Nat
deriving Repr, DecidableEq

/-- The state a session-store operation acts on: the underlying store and
the request-scoped metadata slot (`none` = no active session in scope). -/
structure World where
  store : Store
  meta : Option SessionMeta
deriving Repr, DecidableEq

/-- The serialization the session store uses (`JSON.stringify` /
`JSON.parse` in the source, opaque to this layer): `none` models a thrown
serialization error. -/
structure Codec (U : Type) where
  stringify : U → Option String
  parse : String → Option U

/-- Thrown-exception fault injection for the normalized-client calls the
session store makes, plus failure replies for the write primitives. -/
structure Faults where
  getThrows : Bool := false
  setThrows : Bool := false
  setReplyFalse : Bool := false
  setexThrows : Bool := false
  setexReplyFalse : Bool := false
  delThrows : Bool := false
  expireThrows : Bool := false
  ttlThrows : Bool := false
deriving Repr, DecidableEq

/-- No faults: every normalized-client call succeeds. -/
def noFaults : Faults := {}

/-- Normalized-client `get` as the session store sees it; `Except.error`
models a rejected promise. -/
def nGet (f : Faults) (σ : Store) (k : String) : Except Unit (Option String) :=
  if f.getThrows then .error () else .ok ((storeLookup σ k).map Entry.val)

/-- Normalized-client `set` as the session store sees it. -/
def nSet (f : Faults) (σ : Store) (k v : String) : Except Unit (Bool × Store) :=
  if f.setThrows then .error ()
  else if f.setReplyFalse then .ok (false, σ)
  else .ok (true, storeSet σ k v)

/-- Normalized-client `setex` as the session store sees it. -/
def nSetex (f : Faults) (σ : Store) (k : String) (s : Nat) (v : String) :
    Except Unit (Bool × Store) :=
  if f.setexThrows then .error ()
  else if f.setexReplyFalse then .ok (false, σ)
  else .ok (true, storeSetex σ k s v)

/-- Normalized-client `del` as the session store sees it. -/
def nDel (f : Faults) (σ : Store) (ks : List String) :
    Except Unit (Nat × Store) :=
  if f.delThrows then .error () else .ok (storeDel σ ks)

/-- Normalized-client `expire` as the session store sees it. -/
def nExpire (f : Faults) (σ : Store) (k : String) (s : Nat) :
    Except Unit (Bool × Store) :=
  if f.expireThrows then .error () else .ok (storeExpire σ k s)

/-- Normalized-client `ttl` as the session store sees it. -/
def nTtl (f : Faults) (σ : Store) (k : String) : Except Unit Int :=
  if f.ttlThrows then .error () else .ok (storeTtl σ k)

/-- The computed absolute expiry estimate (source lines 260-262, 327-329):
`Date.now() + ttl * 1000`, or one year when TTL is disabled. -/
def expiresOf (cfg : Config) (now : Nat) : Nat :=
  match cfg.ttl with
  | some t => now + t * 1000
  | none => now + 365 * 24 * 60 * 60 * 1000

/-- The outcome of session-store `get` when no exception escapes:
`null`, the failure signal `undefined`, or the parsed payload. -/
inductive GetRes (U : Type) where
  | null
  | undef
  | payload (u : U)
deriving Repr, DecidableEq

/-- One normalized-client call observed during a session-store operation. -/
inductive Call where
  | cGet (k : String)
  | cExpire (k : String) (s : Nat)
  | cTtl (k : String)
deriving Repr, DecidableEq

/-- Session store `get` (source lines 244-284).  The initial
`normalizedClient.get` sits outside the `try` block; everything from
`JSON.parse` through the rolling/renew TTL handling is inside it, with the
`catch` returning `undefined`.  Returns the outcome (`Except.error` =
exception escaped to the caller), the resulting world, and the trace of
normalized-client calls made. -/
def ssGet {U : Type} (cfg : Config) (cd : Codec U) (f : Faults) (now : Nat)
    (w : World) (sessionId : String) :
    Except Unit (GetRes U) × World × List Call :=
  if sessionId == "" then (.ok .null, w, [])
  else
    let key := getKey cfg sessionId
    match nGet f w.store key with
    | .error _ => (.error (), w, [.cGet key])
    | .ok none => (.ok .null, w, [.cGet key])
    | .ok (some data) =>
      if data == "" then (.ok .null, w, [.cGet key])
      else
        match cd.parse data with
        | none => (.ok .undef, w, [.cGet key])
        | some userData =>
          let w1 : World := ⟨w.store, some ⟨sessionId, expiresOf cfg now⟩⟩
          match cfg.ttl with
          | some t =>
            if cfg.rolling then
              (match nExpire f w1.store key t with
              | .error _ => (.ok .undef, w1, [.cGet key, .cExpire key t])
              | .ok p =>
                (.ok (.payload userData), ⟨p.2, w1.meta⟩,
                  [.cGet key, .cExpire key t]))
            else if cfg.renew then
              (match nTtl f w1.store key with
              | .error _ => (.ok .undef, w1, [.cGet key, .cTtl key])
              | .ok ttlv =>
                if 0 < ttlv ∧ ttlv < (cfg.renewBefore : Int) then
                  (match nExpire f w1.store key t with
                  | .error _ =>
                    (.ok .undef, w1, [.cGet key, .cTtl key, .cExpire key t])
                  | .ok p =>
                    (.ok (.payload userData), ⟨p.2, w1.meta⟩,
                      [.cGet key, .cTtl key, .cExpire key t]))
                else
                  (.ok (.payload userData), w1, [.cGet key, .cTtl key]))
            else (.ok (.payload userData), w1, [.cGet key])
          | none => (.ok (.payload userData), w1, [.cGet key])

/-- Session store `create` (source lines 310-343).  `genId` is the value
the configured session-id generator returns; `defaultData` the value the
default-payload factory returns; `userData = none` models calling `create`
with no payload.  Returns the created payload (`none` = the failure
signal `undefined`) and the resulting world. -/
def ssCreate {U : Type} (cfg : Config) (cd : Codec U) (f : Faults) (now : Nat)
    (genId : String) (defaultData : U) (w : World) (userData : Option U) :
    Option U × World :=
  let sessionId := genId
  let data := userData.getD defaultData
  let key := getKey cfg sessionId
  match cd.stringify data with
  | none => (none, w)
  | some jsonData =>
    let res : Except Unit (Bool × Store) :=
      match cfg.ttl with
      | some t => nSetex f w.store key t jsonData
      | none => nSet f w.store key jsonData
    match res with
    | .error _ => (none, w)
    | .ok p =>
      if p.1 then
        (some data, ⟨p.2, some ⟨sessionId, expiresOf cfg now⟩⟩)
      else (none, ⟨p.2, w.meta⟩)

/-- Session store `destroy` (source lines 345-362).  Returns
`some true` / `some false` / `none` for `true` / `false` / `undefined`.
The metadata clear sits after the `del` call inside the `try` block; the
`catch` returns `undefined`. -/
def ssDestroy (cfg : Config) (f : Faults) (w : World) :
    Option Bool × World :=
  match w.meta with
  | none => (some false, w)
  | some m =>
    if m.sessionId == "" then (some false, w)
    else
      let key := getKey cfg m.sessionId
      match nDel f w.store [key] with
      | .error _ => (none, w)
      | .ok p => (some (decide (0 < p.1)), ⟨p.2, none⟩)

/-! ### Sequences of normalized operations (for the shape-equivalence
property) -/

/-- One operation of the normalized contract whose outcome is a boolean,
an integer count, or a null-versus-value result. -/
inductive NOp where
  | opGet (k : String)
  | opSet (k v : String)
  | opSetex (k : String) (s : Nat) (v : String)
  | opDel (ks : List String)
  | opExpire (k : String) (s : Nat)
  | opTtl (k : String)
  | opMget (ks : List String)
deriving Repr, DecidableEq

/-- An observable outcome of a normalized operation. -/
inductive Obs where
  | oVal (v : Option String)
  | oBool (b : Bool)
  | oCount (n : Nat)
  | oInt (i : Int)
  | oVals (vs : List (Option String))
deriving Repr, DecidableEq

/-- Run one normalized operation over a shape-A underlying client (full
capabilities, canonical protocol replies). -/
def runNormA : NOp → Store → Obs × Store
  | .opGet k, σ => (.oVal (NormA.get σ k), σ)
  | .opSet k v, σ =>
    let p := NormA.set noRawFaults σ k v
    (.oBool p.1, p.2)
  | .opSetex k s v, σ =>
    let p := NormA.setex fullCaps noRawFaults σ k s v
    (.oBool p.1, p.2)
  | .opDel ks, σ =>
    let p := NormA.del σ ks
    (.oCount p.1, p.2)
  | .opExpire k s, σ =>
    let p := NormA.expire noRawFaults σ k s
    (.oBool p.1, p.2)
  | .opTtl k, σ => (.oInt (NormA.ttl fullCaps σ k), σ)
  | .opMget ks, σ => (.oVals (NormA.mget fullCaps σ ks), σ)

/-- Run one normalized operation over a shape-B underlying client (full
capabilities, canonical protocol replies). -/
def runNormB : NOp → Store → Obs × Store
  | .opGet k, σ => (.oVal (NormB.get σ k), σ)
  | .opSet k v, σ =>
    let p := NormB.set noRawFaults σ k v
    (.oBool p.1, p.2)
  | .opSetex k s v, σ =>
    let p := NormB.setex fullCaps noRawFaults σ k s v
    (.oBool p.1, p.2)
  | .opDel ks, σ =>
    let p := NormB.del σ ks
    (.oCount p.1, p.2)
  | .opExpire k s, σ =>
    let p := NormB.expire noRawFaults σ k s
    (.oBool p.1, p.2)
  | .opTtl k, σ => (.oInt (NormB.ttl fullCaps σ k), σ)
  | .opMget ks, σ => (.oVals (NormB.mget fullCaps σ ks), σ)

/-- Run a sequence of normalized operations over shape A, collecting the
observable outcomes. -/
def runSeqA : List NOp → Store → List Obs × Store
  | [], σ => ([], σ)
  | op :: rest, σ =>
    let p := runNormA op σ
    let q := runSeqA rest p.2
    (p.1 :: q.1, q.2)

/-- Run a sequence of normalized operations over shape B, collecting the
observable outcomes. -/
def runSeqB : List NOp → Store → List Obs × Store
  | [], σ => ([], σ)
  | op :: rest, σ =>
    let p := runNormB op σ
    let q := runSeqB rest p.2
    (p.1 :: q.1, q.2)

/-! ### Helper lemmas -/

/-- Looking up a key right after SET finds the freshly stored record. -/
theorem storeLookup_storeSet (σ : Store) (k v : String) :
    storeLookup (storeSet σ k v) k = some ⟨k, v, none⟩ := by
  simp [storeLookup, storeSet, List.find?]

/-- Looking up a key right after SETEX finds the freshly stored record. -/
theorem storeLookup_storeSetex (σ : Store) (k : String) (s : Nat) (v : String) :
    storeLookup (storeSetex σ k s v) k = some ⟨k, v, some s⟩ := by
  simp [storeLookup, storeSetex, List.find?]

/-- EXPIRE on an existing key succeeds and rewrites its TTL. -/
theorem storeExpire_hit (σ : Store) (k : String) (s : Nat) (e : Entry)
    (h : storeLookup σ k = some e) :
    storeExpire σ k s = (true, ⟨k, e.val, some s⟩ :: storeRemove σ k) := by
  simp [storeExpire, h]

/-- Looking up a key right after a successful EXPIRE finds the record with
the new TTL. -/
theorem storeLookup_after_expire (σ : Store) (k : String) (s : Nat) (e : Entry)
    (h : storeLookup σ k = some e) :
    storeLookup (storeExpire σ k s).2 k = some ⟨k, e.val, some s⟩ := by
  rw [storeExpire_hit σ k s e h]
  simp [storeLookup, List.find?]

/-- DEL of a single key: counts 1 iff the key was present. -/
theorem storeDel_singleton (σ : Store) (k : String) :
    storeDel σ [k] =
      (if (storeLookup σ k).isSome then 1 else 0,
       if (storeLookup σ k).isSome then storeRemove σ k else σ) := by
  by_cases h : (storeLookup σ k).isSome <;>
    simp [storeDel, storeDelOne, h]

/-- Per-operation refinement: one normalized operation observes the same
outcome and leaves the same store over either underlying shape. -/
theorem runNorm_shape_eq (op : NOp) (σ : Store) :
    runNormA op σ = runNormB op σ := by
  cases op with
  | opGet k => rfl
  | opSet k v =>
    simp [runNormA, runNormB, NormA.set, NormB.set, IoRedisRaw.set,
      NodeRedisRaw.set, noRawFaults]
  | opSetex k s v =>
    simp [runNormA, runNormB, NormA.setex, NormB.setex, IoRedisRaw.setex,
      NodeRedisRaw.setEx, fullCaps]
  | opDel ks => rfl
  | opExpire k s =>
    simp [runNormA, runNormB, NormA.expire, NormB.expire, IoRedisRaw.expire,
      NodeRedisRaw.expire, noRawFaults]
    rcases hp : storeExpire σ k s with ⟨b, σ2⟩
    cases b <;> simp
  | opTtl k => rfl
  | opMget ks => rfl

/-! ### Claims -/

/-- Claim C2 counterexample: when the underlying client has no TTL
primitive, the normalized `timeToLive` answers `-2` even for a key that is
present with a live TTL of 100 seconds — the very same value the
"key absent" sentinel has (`storeTtl` of a missing key), so the claimed
"unknown" sentinel is not distinct from the "key absent" sentinel. -/
theorem claimC2_ttlUnknown_counterexample :
    NormA.ttl ⟨true, false, true⟩ [⟨"k", "v", some 100⟩] "k" = -2 ∧
    NormB.ttl ⟨true, false, true⟩ [⟨"k", "v", some 100⟩] "k" = -2 ∧
    storeTtl [] "k" = -2 ∧
    storeTtl [⟨"k", "v", some 100⟩] "k" = 100 := by
  refine ⟨rfl, rfl, rfl, by decide⟩

/-- Claim C2 (amended): when the underlying client has no TTL primitive,
the normalized `timeToLive` of either shape returns the constant `-2`;
this value is distinct from the "no TTL set" sentinel `-1` but coincides
with the "key absent" sentinel `-2`. -/
theorem claimC2_ttlUnknown (caps : Caps) (σ : Store) (k : String)
    (h : caps.hasTtl = false) :
    NormA.ttl caps σ k = -2 ∧ NormB.ttl caps σ k = -2 ∧
    NormA.ttl caps σ k ≠ -1 ∧ NormA.ttl caps σ k = storeTtl [] k := by
  simp [NormA.ttl, NormB.ttl, storeTtl, storeLookup, h]

/-- Claim C2 witness: the amended statement at a concrete capability
record, store and key. -/
theorem claimC2_ttlUnknown_witness :
    NormA.ttl ⟨true, false, true⟩ [] "k" = -2 ∧
    NormB.ttl ⟨true, false, true⟩ [] "k" = -2 ∧
    NormA.ttl ⟨true, false, true⟩ [] "k" ≠ -1 ∧
    NormA.ttl ⟨true, false, true⟩ [] "k" = storeTtl [] "k" :=
  claimC2_ttlUnknown ⟨true, false, true⟩ [] "k" rfl

/-- Claim C3: a client with a `scan` function and a lowercase `mget`
function but no `scanIterator` is classified shape A; a client with a
`scanIterator` function and an `mGet` function is classified shape B; a
client matching neither shape makes construction throw the "unsupported
client" error. -/
theorem claimC3_shapeDetection (c : ClientShape) :
    (c.scan = .fn ∧ c.mget = .fn ∧ c.scanIterator = .missing →
      classifyClient c = .shapeA) ∧
    (c.scanIterator = .fn ∧ c.mGet = .fn → classifyClient c = .shapeB) ∧
    (¬(c.scan = .fn ∧ c.mget = .fn ∧ c.scanIterator = .missing) →
      ¬(c.scanIterator = .fn ∧ c.mGet = .fn) →
      classifyClient c = .unsupported) := by
  obtain ⟨s1, s2, s3, s4, s5⟩ := c
  cases s1 <;> cases s2 <;> cases s3 <;> cases s4 <;>
    simp [classifyClient, isIoRedisClient, isNodeRedisClient, JsSlot.truthy]

/-- Claim C3 witness: the three classification outcomes at concrete client
shapes. -/
theorem claimC3_shapeDetection_witness :
    classifyClient ⟨.fn, .fn, .missing, .missing, .missing⟩ = .shapeA ∧
    classifyClient ⟨.missing, .missing, .fn, .fn, .missing⟩ = .shapeB ∧
    classifyClient ⟨.missing, .missing, .missing, .missing, .missing⟩ =
      .unsupported := by
  refine ⟨?_, ?_, ?_⟩
  · exact (claimC3_shapeDetection _).1 ⟨rfl, rfl, rfl⟩
  · exact (claimC3_shapeDetection _).2.1 ⟨rfl, rfl⟩
  · exact (claimC3_shapeDetection _).2.2 (by simp) (by simp)

/-- Claim C7: with no combined set-with-expiry primitive, the normalized
`setex` of either shape does set-then-expire: it returns `false` when the
initial set fails (store untouched), and returns `false` overall when the
expire step fails even though the set step already committed the value. -/
theorem claimC7_setexFallback (caps : Caps) (σ : Store) (k v : String)
    (s : Nat) (hc : caps.hasCombinedSetex = false) :
    (∀ fl : RawFaults, fl.setFails = true →
      NormA.setex caps fl σ k s v = (false, σ) ∧
      NormB.setex caps fl σ k s v = (false, σ)) ∧
    (∀ fl : RawFaults, fl.setFails = false → fl.expireFails = true →
      (NormA.setex caps fl σ k s v).1 = false ∧
      (NormB.setex caps fl σ k s v).1 = false ∧
      storeLookup (NormA.setex caps fl σ k s v).2 k = some ⟨k, v, none⟩ ∧
      storeLookup (NormB.setex caps fl σ k s v).2 k = some ⟨k, v, none⟩) := by
  constructor
  · intro fl hset
    simp [NormA.setex, NormB.setex, IoRedisRaw.set, NodeRedisRaw.set, hc, hset]
  · intro fl hset hexp
    simp [NormA.setex, NormB.setex, IoRedisRaw.set, NodeRedisRaw.set,
      IoRedisRaw.expire, NodeRedisRaw.expire, hc, hset, hexp,
      storeLookup_storeSet]

/-- Claim C7 witness: the fallback behaviour at a concrete key, value and
store, for a set failure and for an expire failure. -/
theorem claimC7_setexFallback_witness :
    NormA.setex ⟨false, true, true⟩ ⟨true, false⟩ [] "k" 5 "v" = (false, []) ∧
    (NormA.setex ⟨false, true, true⟩ ⟨false, true⟩ [] "k" 5 "v").1 = false ∧
    storeLookup (NormA.setex ⟨false, true, true⟩ ⟨false, true⟩ [] "k" 5 "v").2
      "k" = some ⟨"k", "v", none⟩ := by
  have h := claimC7_setexFallback ⟨false, true, true⟩ [] "k" "v" 5 rfl
  exact ⟨(h.1 ⟨true, false⟩ rfl).1, (h.2 ⟨false, true⟩ rfl rfl).1,
    (h.2 ⟨false, true⟩ rfl rfl).2.2.1⟩

/-- Claim C9: over the same store state, every sequence of normalized
operations observes identical outcomes (booleans, integer counts,
null-versus-value results) through the shape-A adapter and through the
shape-B adapter, each underlying client answering with its own protocol's
encodings. -/
theorem claimC9_shapeEquivalence (ops : List NOp) (σ : Store) :
    runSeqA ops σ = runSeqB ops σ := by
  induction ops generalizing σ with
  | nil => rfl
  | cons op rest ih =>
    simp [runSeqA, runSeqB, runNorm_shape_eq op σ, ih]

/-- Claim C10: any client object whose `setex` slot is a function is
accepted as already-normalized by `createRedisSessionStore` — shape
detection is bypassed, so the "unsupported client" failure can never be
raised for it, whatever the other slots. -/
theorem claimC10_setexBypass (c : ClientShape) (h : c.setex = .fn) :
    selectClient c = .ok .passthrough := by
  simp [selectClient, h]

/-- Claim C10 witness: a client exposing only `setex` — it matches neither
recognized shape, yet construction succeeds as a passthrough. -/
theorem claimC10_setexBypass_witness :
    selectClient ⟨.missing, .missing, .missing, .missing, .fn⟩ =
      .ok .passthrough ∧
    classifyClient ⟨.missing, .missing, .missing, .missing, .fn⟩ =
      .unsupported :=
  ⟨claimC10_setexBypass ⟨.missing, .missing, .missing, .missing, .fn⟩ rfl,
    by simp [classifyClient, isIoRedisClient, isNodeRedisClient,
      JsSlot.truthy]⟩

/-- Decimal digit accumulation over a character list (structurally
recursive so the kernel can evaluate it). -/
def parseDigits : List Char → Nat → Option Nat
  | [], acc => some acc
  | c :: cs, acc =>
    if c.isDigit then parseDigits cs (acc * 10 + (c.toNat - 48)) else none

/-- A concrete round-trip-safe serialization used in witnesses: natural
numbers through their decimal strings. -/
def natCodec : Codec Nat :=
  ⟨fun n => some (toString n),
   fun s =>
     match s.data with
     | [] => none
     | l => parseDigits l 0⟩

/-- A serialization whose stringify always throws, used to witness the
serialization-error path. -/
def badCodec : Codec Nat := ⟨fun _ => none, fun _ => none⟩

/-- Claim C1 counterexample: with the stored record present, a failing
underlying `get` makes session-store `get` reject (`Except.error`, the
exception escaping this layer) instead of returning the failure signal
`undefined` — the initial `normalizedClient.get` call sits outside the
`try` block. -/
theorem claimC1_getThrows_counterexample :
    (ssGet {} natCodec { getThrows := true } 0
      ⟨[⟨"session:abc", "7", some 86400⟩], none⟩ "abc").1 = .error () ∧
    storeLookup [⟨"session:abc", "7", some 86400⟩] (getKey {} "abc") =
      some ⟨"session:abc", "7", some 86400⟩ := by
  exact ⟨rfl, rfl⟩

/-- Claim C1 (amended): during session-store `get` on an existing record,
a failure of the initial underlying `get` call escapes this layer
(the call is outside the `try` block), while a failure of the subsequent
`expire` call (rolling) or `ttl` call (renew) is caught and yields the
failure signal `undefined`. -/
theorem claimC1_getErrors {U : Type} (cfg : Config) (cd : Codec U)
    (now : Nat) (w : World) (sid : String) (e : Entry) (u : U) (t : Nat)
    (hsid : sid ≠ "")
    (hlook : storeLookup w.store (getKey cfg sid) = some e)
    (hval : e.val ≠ "")
    (hparse : cd.parse e.val = some u) :
    (ssGet cfg cd { getThrows := true } now w sid).1 = .error () ∧
    (cfg.ttl = some t → cfg.rolling = true →
      (ssGet cfg cd { expireThrows := true } now w sid).1 = .ok .undef) ∧
    (cfg.ttl = some t → cfg.rolling = false → cfg.renew = true →
      (ssGet cfg cd { ttlThrows := true } now w sid).1 = .ok .undef) := by
  refine ⟨?_, ?_, ?_⟩
  · simp [ssGet, nGet, hsid]
  · intro ht hr
    simp [ssGet, nGet, nExpire, hsid, hlook, hval, hparse, ht, hr]
  · intro ht hr hn
    simp [ssGet, nGet, nTtl, hsid, hlook, hval, hparse, ht, hr, hn]

/-- Claim C1 witness: the amended behaviour at a concrete rolling
configuration, store and session id. -/
theorem claimC1_getErrors_witness :
    (ssGet { ttl := some 3, rolling := true } natCodec { getThrows := true }
      0 ⟨[⟨"session:abc", "7", some 3⟩], none⟩ "abc").1 = .error () ∧
    (ssGet { ttl := some 3, rolling := true } natCodec
      { expireThrows := true } 0
      ⟨[⟨"session:abc", "7", some 3⟩], none⟩ "abc").1 = .ok .undef := by
  have h := claimC1_getErrors { ttl := some 3, rolling := true } natCodec 0
    ⟨[⟨"session:abc", "7", some 3⟩], none⟩ "abc"
    ⟨"session:abc", "7", some 3⟩ 7 3 (by decide) rfl (by decide) (by decide)
  exact ⟨h.1, h.2.1 rfl rfl⟩

/-- Claim C4: with rolling and renew both enabled and a numeric TTL, a
successful session-store `get` unconditionally resets the key's TTL to the
full configured value, makes no `ttl` call (the renew threshold check is
never executed), and returns the payload — rolling takes precedence on
every read. -/
theorem claimC4_rollingWins {U : Type} (cfg : Config) (cd : Codec U)
    (now t : Nat) (w : World) (sid : String) (e : Entry) (u : U)
    (hsid : sid ≠ "")
    (hlook : storeLookup w.store (getKey cfg sid) = some e)
    (hval : e.val ≠ "")
    (hparse : cd.parse e.val = some u)
    (httl : cfg.ttl = some t)
    (hroll : cfg.rolling = true)
    (hren : cfg.renew = true) :
    (ssGet cfg cd noFaults now w sid).1 = .ok (.payload u) ∧
    (ssGet cfg cd noFaults now w sid).2.2 =
      [.cGet (getKey cfg sid), .cExpire (getKey cfg sid) t] ∧
    Call.cTtl (getKey cfg sid) ∉ (ssGet cfg cd noFaults now w sid).2.2 ∧
    storeLookup (ssGet cfg cd noFaults now w sid).2.1.store (getKey cfg sid)
      = some ⟨getKey cfg sid, e.val, some t⟩ := by
  have hmain : ssGet cfg cd noFaults now w sid =
      (.ok (.payload u),
        ⟨(storeExpire w.store (getKey cfg sid) t).2,
          some ⟨sid, expiresOf cfg now⟩⟩,
        [.cGet (getKey cfg sid), .cExpire (getKey cfg sid) t]) := by
    simp [ssGet, nGet, nExpire, noFaults, hsid, hlook, hval, hparse, httl,
      hroll]
  rw [hmain]
  exact ⟨rfl, rfl, by simp,
    storeLookup_after_expire w.store (getKey cfg sid) t e hlook⟩

/-- Claim C4 witness: rolling precedence at a concrete configuration with
both policies enabled. -/
theorem claimC4_rollingWins_witness :
    (ssGet { ttl := some 9, rolling := true, renew := true } natCodec
      noFaults 0 ⟨[⟨"session:abc", "7", some 2⟩], none⟩ "abc").1 =
      .ok (.payload 7) ∧
    (ssGet { ttl := some 9, rolling := true, renew := true } natCodec
      noFaults 0 ⟨[⟨"session:abc", "7", some 2⟩], none⟩ "abc").2.2 =
      [.cGet "session:abc", .cExpire "session:abc" 9] := by
  have h := claimC4_rollingWins
    { ttl := some 9, rolling := true, renew := true } natCodec 0 9
    ⟨[⟨"session:abc", "7", some 2⟩], none⟩ "abc"
    ⟨"session:abc", "7", some 2⟩ 7 (by decide) rfl (by decide) (by decide)
    rfl rfl rfl
  exact ⟨h.1, h.2.1⟩

/-- Claim C5 counterexample: with active metadata in scope and a `del`
call that throws, `destroy` returns `undefined` and the metadata is NOT
cleared — the clear sits after the `del` call inside the `try` block, so
the claimed "cleared regardless of deletion outcome, including when the
delete call fails" is false. -/
theorem claimC5_destroyMeta_counterexample :
    ssDestroy {} { delThrows := true } ⟨[], some ⟨"abc", 0⟩⟩ =
      (none, ⟨[], some ⟨"abc", 0⟩⟩) ∧
    (ssDestroy {} { delThrows := true } ⟨[], some ⟨"abc", 0⟩⟩).2.meta =
      some ⟨"abc", 0⟩ := by
  exact ⟨rfl, rfl⟩

/-- Claim C5 (amended): with active metadata in scope, `destroy` clears
the metadata whenever the delete call completes (even when the key was
already gone and zero keys were removed) and then returns true iff at
least one key was actually removed; when the delete call throws, it
returns `undefined` and leaves the metadata (and the world) unchanged. -/
theorem claimC5_destroySemantics (cfg : Config) (f : Faults) (w : World)
    (m : SessionMeta) (hm : w.meta = some m) (hsid : m.sessionId ≠ "") :
    (f.delThrows = false →
      (ssDestroy cfg f w).2.meta = none ∧
      ((ssDestroy cfg f w).1 = some true ↔
        (storeLookup w.store (getKey cfg m.sessionId)).isSome = true)) ∧
    (f.delThrows = true →
      (ssDestroy cfg f w).1 = none ∧ (ssDestroy cfg f w).2 = w) := by
  constructor
  · intro hf
    rcases h : (storeLookup w.store (getKey cfg m.sessionId)).isSome <;>
      simp [ssDestroy, nDel, hm, hsid, hf, storeDel_singleton, h]
  · intro hf
    simp [ssDestroy, nDel, hm, hsid, hf]

/-- Claim C5 witness: the amended behaviour at a concrete world holding
the session's record. -/
theorem claimC5_destroySemantics_witness :
    (ssDestroy {} noFaults
      ⟨[⟨"session:abc", "7", none⟩], some ⟨"abc", 0⟩⟩).2.meta = none ∧
    ((ssDestroy {} noFaults
      ⟨[⟨"session:abc", "7", none⟩], some ⟨"abc", 0⟩⟩).1 = some true ↔
      (storeLookup [⟨"session:abc", "7", none⟩]
        (getKey {} "abc")).isSome = true) := by
  exact (claimC5_destroySemantics {} noFaults
    ⟨[⟨"session:abc", "7", none⟩], some ⟨"abc", 0⟩⟩ ⟨"abc", 0⟩ rfl
    (by decide)).1 rfl

/-- Claim C6: `create` returns the failure signal `undefined` and leaves
the request-scoped metadata unchanged on a serialization error, on a store
write exception, and on a store write answering failure; metadata is
published only on a successful write. -/
theorem claimC6_createFailure {U : Type} (cfg : Config) (cd : Codec U)
    (now : Nat) (genId : String) (dflt : U) (w : World) (ud : Option U) :
    (cd.stringify (ud.getD dflt) = none →
      ssCreate cfg cd noFaults now genId dflt w ud = (none, w)) ∧
    (∀ f : Faults, f.setexThrows = true → f.setThrows = true →
      ssCreate cfg cd f now genId dflt w ud = (none, w)) ∧
    (∀ s, cd.stringify (ud.getD dflt) = some s →
      (ssCreate cfg cd { setexReplyFalse := true, setReplyFalse := true }
        now genId dflt w ud).1 = none ∧
      (ssCreate cfg cd { setexReplyFalse := true, setReplyFalse := true }
        now genId dflt w ud).2.meta = w.meta) ∧
    (∀ s, cd.stringify (ud.getD dflt) = some s →
      (ssCreate cfg cd noFaults now genId dflt w ud).1 = some (ud.getD dflt) ∧
      (ssCreate cfg cd noFaults now genId dflt w ud).2.meta =
        some ⟨genId, expiresOf cfg now⟩) := by
  refine ⟨?_, ?_, ?_, ?_⟩
  · intro h
    simp [ssCreate, h]
  · intro f h1 h2
    rcases hser : cd.stringify (ud.getD dflt) <;>
      rcases httl : cfg.ttl <;>
        simp [ssCreate, nSetex, nSet, h1, h2, httl, hser]
  · intro s hs
    rcases httl : cfg.ttl <;>
      simp [ssCreate, nSetex, nSet, hs, httl]
  · intro s hs
    rcases httl : cfg.ttl <;>
      simp [ssCreate, nSetex, nSet, noFaults, hs, httl]

/-- Claim C6 witness: the failure modes and the success publication at
concrete inputs. -/
theorem claimC6_createFailure_witness :
    ssCreate {} badCodec noFaults 0 "abc" 0 ⟨[], none⟩ (some 7) =
      (none, ⟨[], none⟩) ∧
    ssCreate {} natCodec { setexThrows := true, setThrows := true } 0 "abc"
      0 ⟨[], none⟩ (some 7) = (none, ⟨[], none⟩) ∧
    (ssCreate {} natCodec { setexReplyFalse := true, setReplyFalse := true }
      0 "abc" 0 ⟨[], none⟩ (some 7)).1 = none ∧
    (ssCreate {} natCodec noFaults 0 "abc" 0 ⟨[], none⟩ (some 7)).2.meta =
      some ⟨"abc", expiresOf {} 0⟩ := by
  refine ⟨?_, ?_, ?_, ?_⟩
  · exact (claimC6_createFailure {} badCodec 0 "abc" 0 ⟨[], none⟩
      (some 7)).1 rfl
  · exact (claimC6_createFailure {} natCodec 0 "abc" 0 ⟨[], none⟩
      (some 7)).2.1 { setexThrows := true, setThrows := true } rfl rfl
  · exact ((claimC6_createFailure {} natCodec 0 "abc" 0 ⟨[], none⟩
      (some 7)).2.2.1 "7" rfl).1
  · exact ((claimC6_createFailure {} natCodec 0 "abc" 0 ⟨[], none⟩
      (some 7)).2.2.2 "7" rfl).2

/-- Claim C8: for a round-trip-serializable payload, a successful
`create(P)` followed by `get` with the created session id returns exactly
P (under any TTL, rolling and renew configuration, with a fault-free
store). -/
theorem claimC8_roundTrip {U : Type} (cfg : Config) (cd : Codec U)
    (now now2 : Nat) (genId : String) (dflt : U) (w : World) (P : U)
    (s : String)
    (hgen : genId ≠ "")
    (hser : cd.stringify P = some s)
    (hs : s ≠ "")
    (hparse : cd.parse s = some P) :
    (ssCreate cfg cd noFaults now genId dflt w (some P)).1 = some P ∧
    (ssGet cfg cd noFaults now2
      (ssCreate cfg cd noFaults now genId dflt w (some P)).2 genId).1 =
      .ok (.payload P) := by
  rcases httl : cfg.ttl with _ | t
  · have hc : ssCreate cfg cd noFaults now genId dflt w (some P) =
        (some P, ⟨storeSet w.store (getKey cfg genId) s,
          some ⟨genId, expiresOf cfg now⟩⟩) := by
      simp [ssCreate, nSet, noFaults, httl, hser]
    rw [hc]
    refine ⟨rfl, ?_⟩
    simp [ssGet, nGet, noFaults, hgen, hs, hparse, storeLookup_storeSet,
      httl]
  · have hc : ssCreate cfg cd noFaults now genId dflt w (some P) =
        (some P, ⟨storeSetex w.store (getKey cfg genId) t s,
          some ⟨genId, expiresOf cfg now⟩⟩) := by
      simp [ssCreate, nSetex, noFaults, httl, hser]
    rw [hc]
    refine ⟨rfl, ?_⟩
    simp [ssGet, nGet, nExpire, nTtl, noFaults, hgen, hs, hparse,
      storeLookup_storeSetex, httl]
    by_cases hr : cfg.rolling
    · simp [hr, storeExpire, storeLookup_storeSetex]
    · by_cases hn : cfg.renew
      · simp [hr, hn, storeTtl, storeLookup_storeSetex]
        split <;> rfl
      · simp [hr, hn]

/-- Claim C8 witness: the round trip at the default configuration with the
decimal codec and payload 7. -/
theorem claimC8_roundTrip_witness :
    (ssCreate {} natCodec noFaults 0 "abc" 0 ⟨[], none⟩ (some 7)).1 =
      some 7 ∧
    (ssGet {} natCodec noFaults 0
      (ssCreate {} natCodec noFaults 0 "abc" 0 ⟨[], none⟩ (some 7)).2
      "abc").1 = .ok (.payload 7) := by
  exact claimC8_roundTrip {} natCodec 0 0 "abc" 0 ⟨[], none⟩ 7 "7"
    (by decide) rfl (by decide) (by decide)

end FaSessionRedis
